import Mathlib

/-!
Verification development for the SwasthyaAI orchestration core.

The definitions below are a shallow embedding of the Python sources under
src/backend (intent classifier, audit logger, explainability generator,
orchestrator pipeline) plus, where noted, components modelled from the
specification because their source file is not part of the sources.

Modelling conventions:
* Python floats are embedded as rationals with exact arithmetic.
* Python strings are embedded as Lean String values; the classifier works
  on their character lists.
* Python dicts with string keys are embedded as ordered association lists.
* Python exceptions are embedded with Except.
-/

/-- The apostrophe character, used in a few source patterns and strings. -/
def apos : Char := Char.ofNat 39

/-- Word characters in the sense of the regex class backslash-w restricted
to ASCII, which is the alphabet of every pattern in the source. -/
def isWordChar (c : Char) : Bool := c.isAlphanum || c == '_'

/-- What a pattern alternative requires after its literal text.
The source patterns are word-bounded alternations of literals; two
alternatives need special tails: diagnos followed by word-star (any tail
works, see the comment at the diagnostic pattern), and mean followed by a
whitespace class and a word boundary (one whitespace char then a word
char). -/
inductive TailReq where
  | wordBoundary
  | anyTail
  | wsWord
deriving DecidableEq

/-- One alternative of a regex alternation: literal characters plus the
requirement on what follows. A word boundary must precede the literal. -/
structure Alt where
  lits : List Char
  tail : TailReq
deriving DecidableEq

/-- Consume the literal characters at the front of the message, returning
the rest of the message on success. -/
def consumeLits : List Char → List Char → Option (List Char)
  | [], rest => some rest
  | _ :: _, [] => none
  | a :: as, c :: cs => if a == c then consumeLits as cs else none

/-- Check the tail requirement of an alternative against the rest of the
message after the literal. -/
def tailOk : TailReq → List Char → Bool
  | TailReq.wordBoundary, [] => true
  | TailReq.wordBoundary, c :: _ => !(isWordChar c)
  | TailReq.anyTail, _ => true
  | TailReq.wsWord, c :: d :: _ => c.isWhitespace && isWordChar d
  | TailReq.wsWord, [] => false
  | TailReq.wsWord, [c] => false && c.isWhitespace

/-- Does the alternative match starting exactly at the head of msg. -/
def matchHere (alt : Alt) (msg : List Char) : Bool :=
  match consumeLits alt.lits msg with
  | some rest => tailOk alt.tail rest
  | none => false

/-- A word boundary holds before the match position when the preceding
character, if any, is not a word character. -/
def prevOk : Option Char → Bool
  | none => true
  | some c => !(isWordChar c)

/-- Search the message for a position where the alternative matches with a
word boundary before it, like re.search does for a word-bounded literal. -/
def searchAlt (alt : Alt) : Option Char → List Char → Bool
  | _, [] => false
  | prev, c :: rest => (prevOk prev && matchHere alt (c :: rest)) || searchAlt alt (some c) rest

/-- An alternative is found somewhere in the message. -/
def altFound (alt : Alt) (msg : List Char) : Bool := searchAlt alt none msg

/-- A full pattern (alternation) matches when one alternative is found. -/
def pattMatches (alts : List Alt) (msg : List Char) : Bool :=
  alts.any (fun a => altFound a msg)

/-- Plain substring test, embedding the Python operator in. -/
def startsWithLits : List Char → List Char → Bool
  | [], _ => true
  | _ :: _, [] => false
  | a :: as, b :: bs => a == b && startsWithLits as bs

/-- Substring containment anywhere in the message. -/
def containsLits (pat : List Char) : List Char → Bool
  | [] => startsWithLits pat []
  | c :: rest => startsWithLits pat (c :: rest) || containsLits pat rest

/-- Lowercasing of a message, embedding str.lower for the ASCII alphabet
used by every pattern. -/
def toLowerChars (s : String) : List Char := s.data.map Char.toLower

/-- Python min on two rationals: the first argument when it is not larger. -/
def ratMin (a b : ℚ) : ℚ := if a ≤ b then a else b

/-- Word-bounded alternative made of the literal characters of a string. -/
def wb (s : String) : Alt := { lits := s.data, tail := TailReq.wordBoundary }

/-- Urgency levels of orchestrator/base.py. -/
inductive UrgencyLevel where
  | emergency
  | urgent
  | routine
  | nonUrgent
deriving DecidableEq

/-- The emergency pattern list of IntentClassifier, in source order. The
alternative cant breathe carries its apostrophe. -/
def emergencyPatterns : List (List Alt) :=
  [ [wb "emergency", wb "urgent", wb "critical", wb "severe"],
    [wb "chest pain", wb "heart attack", wb "stroke", wb "seizure"],
    [{ lits := ("can").data ++ apos :: ("t breathe").data, tail := TailReq.wordBoundary },
      wb "difficulty breathing", wb "choking"],
    [wb "unconscious", wb "unresponsive", wb "passed out"],
    [wb "severe bleeding", wb "hemorrhage"],
    [wb "suicide", wb "kill myself", wb "self harm"] ]

/-- The per-agent pattern table of IntentClassifier, in source (insertion)
order. The optional hyphen of x-ray expands into the two literal
alternatives; diagnos with word-star reduces to finding diagnos after a
word boundary (the trailing boundary is then always satisfiable); mean
followed by the whitespace class needs one whitespace char and then a word
char for the trailing boundary. -/
def agentPatterns : List (String × List (List Alt)) :=
  [ ("triage",
      [ [wb "emergency", wb "urgent", wb "pain", wb "symptoms", wb "sick", wb "ill", wb "feeling"],
        [wb "fever", wb "cough", wb "headache", wb "nausea", wb "vomiting", wb "diarrhea", wb "sore throat"],
        [wb "how serious", wb "should i worry", wb "need doctor"],
        [wb "i have",
          { lits := ("i").data ++ apos :: ("m feeling").data, tail := TailReq.wordBoundary },
          wb "i feel", wb "experiencing"] ]),
    ("health_support",
      [ [wb "hello", wb "hi", wb "hey", wb "greeting"],
        [wb "daily", wb "check in", wb "wellness", wb "how am i"] ]),
    ("diagnostic_support",
      [ [{ lits := ("diagnos").data, tail := TailReq.anyTail }, wb "condition", wb "disease", wb "what do i have"],
        [wb "differential", wb "possible conditions", wb "could it be"],
        [wb "symptoms suggest", wb "indicate", wb "might mean"] ]),
    ("image_analysis",
      [ [wb "x-ray", wb "xray", wb "xray", wb "scan", wb "ct", wb "mri", wb "ultrasound", wb "imaging"],
        [wb "analyze image", wb "check image", wb "look at", wb "review image"],
        [wb "chest x-ray", wb "chest xray", wb "brain scan", wb "dermatology"] ]),
    ("drug_info",
      [ [wb "medication", wb "medicine", wb "drug", wb "prescription", wb "pill"],
        [wb "side effect", wb "interaction", wb "contraindication"],
        [wb "dosage", wb "how much", wb "how often", wb "when to take"],
        [wb "aspirin", wb "ibuprofen", wb "tylenol", wb "antibiotic"] ]),
    ("communication",
      [ [wb "explain", wb "what is", wb "tell me about", wb "describe"],
        [wb "in simple terms", wb "layman", wb "easy to understand"],
        [{ lits := ("mean").data, tail := TailReq.wsWord }, wb "definition", wb "understand"] ]),
    ("appointment",
      [ [wb "appointment", wb "schedule", wb "book", wb "availability", wb "available"],
        [wb "see doctor", wb "visit", wb "consultation"],
        [wb "next available", wb "earliest", wb "when can i"] ]),
    ("referral",
      [ [wb "specialist", wb "referral", wb "find doctor", wb "recommend doctor"],
        [wb "cardiologist", wb "dermatologist", wb "neurologist", wb "oncologist"],
        [wb "nearby", wb "near me", wb "in my area"] ]),
    ("health_memory",
      [ [wb "history", wb "past", wb "previous", wb "records", wb "medical record"],
        [wb "last time", wb "before", wb "earlier", wb "previously"],
        [wb "retrieve", wb "look up", wb "find", wb "search"] ]),
    ("document_vault",
      [ [wb "upload", wb "store", wb "save", wb "document", wb "file", wb "report"],
        [wb "lab results", wb "test results", wb "prescription", wb "scan"] ]),
    ("voice",
      [ [wb "transcribe", wb "voice", wb "speech", wb "audio", wb "recording"],
        [wb "dictate", wb "hands-free"] ]) ]

/-- Number of emergency patterns that match the lowercased message,
embedding the counting loop of IntentClassifier._check_emergency. -/
def emergencyMatchCount (msg : List Char) : Nat :=
  (emergencyPatterns.filter (fun p => pattMatches p msg)).length

/-- Embedding of IntentClassifier._check_emergency. -/
def checkEmergency (msg : List Char) : UrgencyLevel × ℚ :=
  let m := emergencyMatchCount msg
  if 0 < m then (UrgencyLevel.emergency, ratMin (mkRat 19 20) (mkRat 7 10 + (m : ℚ) * mkRat 3 20))
  else (UrgencyLevel.routine, 0)

/-- Embedding of IntentClassifier._score_agents: agents with at least one
matching pattern, with score min 0.95 (matches divided by total plus 0.1
per match), in table order. -/
def scoreAgents (msg : List Char) : List (String × ℚ) :=
  agentPatterns.filterMap (fun p =>
    let m := (p.2.filter (fun pat => pattMatches pat msg)).length
    if 0 < m then
      some (p.1, ratMin (mkRat 19 20) (mkRat (m : Int) p.2.length + (m : ℚ) * mkRat 1 10))
    else none)

/-- Stable-descending insertion, matching the behavior of Python sorted
with key score and reverse, which keeps insertion order on ties. -/
def insertDesc (x : String × ℚ) : List (String × ℚ) → List (String × ℚ)
  | [] => [x]
  | y :: rest => if x.2 < y.2 then y :: insertDesc x rest else x :: y :: rest

/-- Stable sort by descending score. -/
def sortDesc (l : List (String × ℚ)) : List (String × ℚ) := l.foldr insertDesc []

/-- JSON-like dynamic values, embedding the Any-typed payloads the Python
code passes around (dict values, context entries, response data). -/
inductive Value where
  | str (s : String)
  | num (q : ℚ)
  | bool (b : Bool)
  | null
  | arr (items : List Value)
  | obj (fields : List (String × Value))

/-- Association-list lookup, embedding dict indexing by string key. -/
def ctxGet (d : List (String × Value)) (k : String) : Option Value :=
  (d.find? (fun p => p.1 == k)).map (fun p => p.2)

/-- Embedding of dict.get with a default. -/
def ctxGetD (d : List (String × Value)) (k : String) (dflt : Value) : Value :=
  match ctxGet d k with
  | some v => v
  | none => dflt

/-- Embedding of AgentRequest from orchestrator/base.py. -/
structure AgentRequest where
  user_id : String
  message : String
  session_id : Option String := none
  attachments : List String := []
  context : List (String × Value) := []
  timestamp : Nat := 0

/-- Embedding of IntentClassification from intent_classifier.py. -/
structure IntentClassification where
  primary_agent : String
  secondary_agents : List String
  urgency : UrgencyLevel
  confidence : ℚ
  reasoning : String
deriving DecidableEq

/-- Embedding of IntentClassifier.classify: emergency gate first, then
agent scoring with stable descending selection, secondary agents above
score 0.3 capped at two, and urgency adjustment. -/
def classify (request : AgentRequest) : IntentClassification :=
  let message := toLowerChars request.message
  let ec := checkEmergency message
  if ec.1 = UrgencyLevel.emergency then
    { primary_agent := "triage"
      secondary_agents := []
      urgency := UrgencyLevel.emergency
      confidence := ec.2
      reasoning := "Emergency keywords detected. Immediate triage required." }
  else
    match sortDesc (scoreAgents message) with
    | [] =>
      { primary_agent := "communication"
        secondary_agents := []
        urgency := UrgencyLevel.routine
        confidence := mkRat 3 10
        reasoning := "No specific agent matched. Defaulting to general communication." }
    | top :: rest =>
      let secondary := ((rest.filter (fun p => mkRat 3 10 < p.2)).map Prod.fst).take 2
      let urgency :=
        if top.1 = "triage" ∧ mkRat 6 10 < top.2 then UrgencyLevel.urgent
        else if containsLits ("emergency").data message || containsLits ("urgent").data message then
          UrgencyLevel.urgent
        else UrgencyLevel.routine
      { primary_agent := top.1
        secondary_agents := secondary
        urgency := urgency
        confidence := top.2
        reasoning := "Matched agent " ++ String.singleton apos ++ top.1 ++ String.singleton apos
          ++ " based on keyword patterns." }


/-- Embedding of the ConfidenceLevel enum of orchestrator/base.py. -/
inductive ConfidenceLevel where
  | veryLow
  | low
  | moderate
  | high
deriving DecidableEq

/-- The display string of each confidence level, the enum values of the
source. -/
def levelValue : ConfidenceLevel → String
  | ConfidenceLevel.veryLow => "very_low"
  | ConfidenceLevel.low => "low"
  | ConfidenceLevel.moderate => "moderate"
  | ConfidenceLevel.high => "high"

/-- Numeric rank of a confidence level in the order very low, low,
moderate, high; used to state monotonicity. -/
def levelRank : ConfidenceLevel → Nat
  | ConfidenceLevel.veryLow => 0
  | ConfidenceLevel.low => 1
  | ConfidenceLevel.moderate => 2
  | ConfidenceLevel.high => 3

/-- Embedding of AgentResponse.get_confidence_level from
orchestrator/base.py. -/
def getConfidenceLevel (confidence : ℚ) : ConfidenceLevel :=
  if mkRat 8 10 ≤ confidence then ConfidenceLevel.high
  else if mkRat 5 10 ≤ confidence then ConfidenceLevel.moderate
  else if mkRat 2 10 ≤ confidence then ConfidenceLevel.low
  else ConfidenceLevel.veryLow

/-- Embedding of AgentResponse.get_confidence_emoji from
orchestrator/base.py. -/
def getConfidenceEmoji (confidence : ℚ) : String :=
  match getConfidenceLevel confidence with
  | ConfidenceLevel.high => "🟢"
  | ConfidenceLevel.moderate => "🟡"
  | ConfidenceLevel.low => "🟠"
  | ConfidenceLevel.veryLow => "🔴"

/-- The PII field list of AuditLogger._deidentify_data. -/
def piiFields : List String := ["name", "email", "phone", "ssn", "address", "dob"]

/-- Lowercasing of a key string, embedding str.lower for dict keys. -/
def lowerStr (s : String) : String := String.mk (s.data.map Char.toLower)

/-- The literal replacement value used by the audit redaction. -/
def redactedLit : String := "[REDACTED]"

mutual

/-- Embedding of AuditLogger._deidentify_data on a dict: a key in the PII
list is replaced by the redaction literal, a dict value recurses, a list
value has exactly its dict items recursed, everything else is kept. -/
def deidentifyData : List (String × Value) → List (String × Value)
  | [] => []
  | (k, v) :: rest =>
    (k, if piiFields.contains (lowerStr k) then Value.str redactedLit
        else deidentifySub v) :: deidentifyData rest

/-- The per-value branch of AuditLogger._deidentify_data for a non-PII key. -/
def deidentifySub : Value → Value
  | Value.obj fields => Value.obj (deidentifyData fields)
  | Value.arr items => Value.arr (deidentifyItems items)
  | v => v

/-- The list branch of AuditLogger._deidentify_data: only items that are
dicts are recursed; any other item, including a nested list, is kept. -/
def deidentifyItems : List Value → List Value
  | [] => []
  | Value.obj fields :: rest => Value.obj (deidentifyData fields) :: deidentifyItems rest
  | v :: rest => v :: deidentifyItems rest

end

mutual

/-- Checker for the positions the source redaction actually reaches: PII
keys of the top dict, of nested dicts, and of dicts sitting directly in a
list hold the redaction literal. -/
def cleanData : List (String × Value) → Bool
  | [] => true
  | (k, v) :: rest =>
    (if piiFields.contains (lowerStr k) then
       match v with
       | Value.str s => s == redactedLit
       | _ => false
     else cleanVal v) && cleanData rest

/-- Value part of the reachable-positions checker. -/
def cleanVal : Value → Bool
  | Value.obj fields => cleanData fields
  | Value.arr items => cleanItems items
  | _ => true

/-- List part of the reachable-positions checker: it constrains only dict
items, exactly mirroring the reach of the source recursion. -/
def cleanItems : List Value → Bool
  | [] => true
  | Value.obj fields :: rest => cleanData fields && cleanItems rest
  | _ :: rest => cleanItems rest

end

mutual

/-- Checker for the property the claim states: nowhere in the structure,
at any nesting depth including lists inside lists, does a PII key hold a
value other than the redaction literal. -/
def deepCleanData : List (String × Value) → Bool
  | [] => true
  | (k, v) :: rest =>
    (if piiFields.contains (lowerStr k) then
       match v with
       | Value.str s => s == redactedLit
       | _ => false
     else deepCleanVal v) && deepCleanData rest

/-- Value part of the full-depth checker. -/
def deepCleanVal : Value → Bool
  | Value.obj fields => deepCleanData fields
  | Value.arr items => deepCleanItems items
  | _ => true

/-- List part of the full-depth checker: every item is checked, also
nested lists. -/
def deepCleanItems : List Value → Bool
  | [] => true
  | v :: rest => deepCleanVal v && deepCleanItems rest

end


/-- Embedding of AgentResponse from orchestrator/base.py. -/
structure AgentResponse where
  success : Bool
  agent_name : String
  data : List (String × Value)
  confidence : ℚ
  reasoning : Option String := none
  red_flags : List String := []
  requires_escalation : Bool := false
  suggested_agents : List String := []
  metadata : List (String × Value) := []
  timestamp : Nat := 0

/-- Python truthiness of an embedded value. -/
def pyTruthy : Value → Bool
  | Value.str s => s != ""
  | Value.num q => q != 0
  | Value.bool b => b
  | Value.null => false
  | Value.arr items => !items.isEmpty
  | Value.obj fields => !fields.isEmpty

/-- Python truthiness of an optional string (None and the empty string are
falsy). -/
def pyTruthyStr : Option String → Bool
  | none => false
  | some s => s != ""

/-- Python int() truncation of a rational; every use in the source applies
it to a nonnegative value, where it is the floor. -/
def pyInt (q : ℚ) : Int := q.num / (q.den : Int)

/-- Decimal rendering of an integer. -/
def intStr (i : Int) : String := toString i

/-- Decimal rendering of a natural number. -/
def natStr (n : Nat) : String := toString n

/-- Rendering of a rational for display; the source renders Python floats,
whose decimal formatting this development does not reproduce digit for
digit. No claim depends on this rendering. -/
def ratStr (q : ℚ) : String :=
  if q.den == 1 then intStr q.num else intStr q.num ++ "/" ++ natStr q.den

/-- A string wrapped in apostrophes, as Python repr renders dict keys. -/
def quoApos (s : String) : String := String.singleton apos ++ s ++ String.singleton apos

mutual

/-- Embedding of Python str() on an embedded value. Container rendering
follows Python repr shape; no claim depends on the exact digits or
spacing. -/
def pyStr : Value → String
  | Value.str s => s
  | Value.num q => ratStr q
  | Value.bool b => if b then "True" else "False"
  | Value.null => "None"
  | Value.arr items => "[" ++ pyStrItems items ++ "]"
  | Value.obj fields => "\x7b" ++ pyStrFields fields ++ "\x7d"

/-- Comma-separated rendering of list items. -/
def pyStrItems : List Value → String
  | [] => ""
  | [v] => pyStr v
  | v :: rest => pyStr v ++ ", " ++ pyStrItems rest

/-- Comma-separated rendering of dict fields. -/
def pyStrFields : List (String × Value) → String
  | [] => ""
  | [(k, v)] => quoApos k ++ ": " ++ pyStr v
  | (k, v) :: rest => quoApos k ++ ": " ++ pyStr v ++ ", " ++ pyStrFields rest

end

/-- Percentage used throughout the explainability agent: int of confidence
times 100. -/
def confPercent (q : ℚ) : Int := pyInt (q * 100)

/-- Comparison of an embedded value with a string literal, embedding the
Python equality test between a dynamic value and a string. -/
def valEqStr (v : Value) (s : String) : Bool :=
  match v with
  | Value.str t => t == s
  | _ => false

/-- The numeric content of an embedded value where the source applies
arithmetic; a non-numeric value there raises in the source and is out of
the modelled domain. -/
def numVal : Value → ℚ
  | Value.num q => q
  | Value.bool b => if b then 1 else 0
  | _ => 0

/-- Embedding of ExplainabilityAgent._explain_triage. -/
def explainTriage (r : AgentResponse) : String :=
  let urgency := ctxGetD r.data "urgency_level" (Value.str "UNKNOWN")
  let pct := intStr (confPercent r.confidence)
  if valEqStr urgency "EMERGENCY" then
    let desc := if r.red_flags.isEmpty then "emergency indicators"
      else String.intercalate ", " r.red_flags
    "EMERGENCY triage classification triggered by detection of " ++ desc
      ++ ". These symptoms match patterns associated with life-threatening conditions requiring immediate medical evaluation. System confidence: "
      ++ pct ++ "%."
  else if valEqStr urgency "URGENT" then
    "URGENT triage classification based on symptom severity and pattern. While not immediately life-threatening, symptoms warrant prompt medical evaluation within 24 hours to prevent complications. Confidence: "
      ++ pct ++ "%."
  else
    "ROUTINE triage classification - no immediate red flags detected. Symptoms can be evaluated during standard clinic visit. Patient advised to monitor for worsening and seek urgent care if condition changes. Confidence: "
      ++ pct ++ "%."

/-- Embedding of ExplainabilityAgent._explain_diagnostic. A non-list
differential raises when indexed in the source and is out of the modelled
domain. -/
def explainDiagnostic (r : AgentResponse) : String :=
  match ctxGetD r.data "differential_diagnosis" (Value.arr []) with
  | Value.arr (top :: rest) =>
    let conditionName :=
      match top with
      | Value.obj fields =>
        (match ctxGet fields "condition" with
         | some v => pyStr v
         | none => "None")
      | v => pyStr v
    "Differential diagnosis analysis suggests " ++ quoApos conditionName
      ++ " as most likely explanation based on symptom pattern matching (confidence: "
      ++ intStr (confPercent r.confidence) ++ "%). " ++ natStr rest.length
      ++ " alternative condition(s) considered. Clinical correlation with physical exam, labs, and imaging required for definitive diagnosis. This is decision support only, not a final diagnosis."
  | _ => "Insufficient symptom information to generate differential diagnosis."

/-- Embedding of ExplainabilityAgent._explain_image_analysis. Non-list
regions raise at len() in the source and are out of the modelled domain. -/
def explainImageAnalysis (r : AgentResponse) : String :=
  let fallback :=
    "Image analysis completed with confidence " ++ intStr (confPercent r.confidence)
      ++ "%. All AI-generated findings require validation by qualified radiologist. This is a screening tool, not a diagnostic interpretation."
  match ctxGetD r.data "findings" (Value.obj []) with
  | Value.obj fields =>
    (match ctxGetD fields "regions_of_interest" (Value.arr []) with
     | Value.arr (reg :: regs) =>
       "AI image analysis identified " ++ natStr (reg :: regs).length
         ++ " region(s) of interest requiring radiologist review. Findings are preliminary and must be confirmed by qualified radiologist. Confidence: "
         ++ intStr (confPercent r.confidence) ++ "%."
     | _ => fallback)
  | _ => fallback

/-- Embedding of ExplainabilityAgent._explain_drug_info. -/
def explainDrugInfo (r : AgentResponse) : String :=
  let drugName := pyStr (ctxGetD r.data "drug_name" (Value.str "medication"))
  "Drug information retrieved for " ++ drugName
    ++ " from local medical database. Information includes uses, side effects, and known interactions. This is educational information only - NOT a prescription or dosage recommendation. Always consult pharmacist or prescribing physician for personalized advice."

/-- Embedding of ExplainabilityAgent._generic_explanation. -/
def genericExplanation (r : AgentResponse) : String :=
  let tailText :=
    match r.reasoning with
    | some s => if s == "" then "No detailed reasoning available." else s
    | none => "No detailed reasoning available."
  "AI agent " ++ quoApos r.agent_name ++ " processed request with "
    ++ intStr (confPercent r.confidence) ++ "% confidence. " ++ tailText

/-- Embedding of ExplainabilityAgent._generate_reasoning_summary. -/
def generateReasoningSummary (r : AgentResponse) (agentType : String) : String :=
  if agentType == "triage" then explainTriage r
  else if agentType == "diagnostic_support" then explainDiagnostic r
  else if agentType == "image_analysis" then explainImageAnalysis r
  else if agentType == "drug_info" then explainDrugInfo r
  else genericExplanation r

/-- One decision factor of the explainability metadata. -/
structure DecisionFactor where
  factor : String
  value : Value
  importance : String
  description : String

/-- The confidence factor of ExplainabilityAgent._extract_decision_factors,
always present. -/
def confidenceFactor (r : AgentResponse) : DecisionFactor :=
  { factor := "AI Confidence Score"
    value := Value.str (intStr (confPercent r.confidence) ++ "%")
    importance := if mkRat 7 10 ≤ r.confidence then "high" else "moderate"
    description := "Model confidence in prediction: " ++ levelValue (getConfidenceLevel r.confidence) }

/-- The red-flags factor, present when the reply carries red flags. -/
def redFlagsFactor (r : AgentResponse) : DecisionFactor :=
  { factor := "Red Flags Detected"
    value := Value.num (r.red_flags.length : ℚ)
    importance := "critical"
    description := "Emergency indicators: " ++ String.intercalate ", " (r.red_flags.take 3) }

/-- The handler-type-specific factor of _extract_decision_factors: zero or
one factor per branch. Non-list symptom or interaction values raise at
len() in the source and are out of the modelled domain. -/
def agentSpecificFactors (r : AgentResponse) (agentType : String) : List DecisionFactor :=
  if agentType == "triage" then
    let urgency := ctxGetD r.data "urgency_level" (Value.str "UNKNOWN")
    [ { factor := "Urgency Classification"
        value := urgency
        importance := if valEqStr urgency "EMERGENCY" then "critical" else "high"
        description := "Triage level determined: " ++ pyStr urgency } ]
  else if agentType == "diagnostic_support" then
    match ctxGetD r.data "detected_symptoms" (Value.arr []) with
    | Value.arr (s :: ss) =>
      [ { factor := "Symptoms Analyzed"
          value := Value.num ((s :: ss).length : ℚ)
          importance := "high"
          description := "Symptoms: " ++ String.intercalate ", " (((s :: ss).take 5).map pyStr) } ]
    | _ => []
  else if agentType == "drug_info" then
    match ctxGetD r.data "known_interactions" (Value.arr []) with
    | Value.arr (s :: ss) =>
      [ { factor := "Drug Interactions"
          value := Value.num ((s :: ss).length : ℚ)
          importance := "high"
          description := "Known interactions with: " ++ String.intercalate ", " (((s :: ss).take 3).map pyStr) } ]
    | _ => []
  else []

/-- Embedding of ExplainabilityAgent._extract_decision_factors: the
confidence factor, then the red-flags factor when flags exist, then the
handler-type-specific factor. -/
def extractDecisionFactors (r : AgentResponse) (agentType : String) : List DecisionFactor :=
  [confidenceFactor r]
    ++ (if r.red_flags.isEmpty then [] else [redFlagsFactor r])
    ++ agentSpecificFactors r agentType

/-- Embedding of ExplainabilityAgent._identify_alternatives. -/
def identifyAlternatives (r : AgentResponse) (agentType : String) : List String :=
  if agentType == "diagnostic_support" then
    match ctxGetD r.data "differential_diagnosis" (Value.arr []) with
    | Value.arr items =>
      ((items.drop 1).take 3).map (fun c =>
        match c with
        | Value.obj fields =>
          let name := pyStr (ctxGetD fields "condition" (Value.str "Unknown"))
          let conf := numVal (ctxGetD fields "confidence" (Value.num 0))
          name ++ " (" ++ intStr (confPercent conf) ++ "% confidence)"
        | v => pyStr v)
    | _ => []
  else if agentType == "triage" then
    let urgency := ctxGetD r.data "urgency_level" (Value.str "UNKNOWN")
    if valEqStr urgency "ROUTINE" then
      ["Urgent care visit if symptoms worsen", "Telemedicine consultation if preferred"]
    else if valEqStr urgency "URGENT" then
      ["Emergency department if condition deteriorates"]
    else []
  else if agentType == "image_analysis" then
    ["Second opinion from specialist radiologist", "Additional imaging modalities if clinically indicated"]
  else []

/-- Embedding of ExplainabilityAgent._calculate_explainability_score. The
source increments a running score; since every increment is a constant
gated by its own condition, the chain is written as the sum of the gated
constants over the base of 50, clamped to the range 0 to 100. -/
def calculateExplainabilityScore (r : AgentResponse) (factors : List DecisionFactor)
    (alts : List String) : Int :=
  let score : Int := 50
    + (if pyTruthyStr r.reasoning = true ∧ 20 < (r.reasoning.getD "").length then 20 else 0)
    + (if 2 ≤ factors.length then 10 else 0)
    + (if 4 ≤ factors.length then 5 else 0)
    + (if 1 ≤ alts.length then 10 else 0)
    + (if 3 ≤ alts.length then 5 else 0)
    - (if r.confidence < mkRat 3 10 ∧ pyTruthyStr r.reasoning = false then 20 else 0)
    + (if mkRat 8 10 ≤ r.confidence ∧ pyTruthyStr r.reasoning = true then 10 else 0)
  max 0 (min 100 score)

/-- The explainability metadata record returned by
ExplainabilityAgent.explain_agent_response. -/
structure ExplainabilityMetadata where
  reasoning_summary : String
  decision_factors : List DecisionFactor
  alternative_considerations : List String
  explainability_score : Int

/-- Embedding of ExplainabilityAgent.explain_agent_response. -/
def explainAgentResponse (r : AgentResponse) (agentType : String) : ExplainabilityMetadata :=
  let factors := extractDecisionFactors r agentType
  let alts := identifyAlternatives r agentType
  { reasoning_summary := generateReasoningSummary r agentType
    decision_factors := factors
    alternative_considerations := alts
    explainability_score := calculateExplainabilityScore r factors alts }


/-- Confidence display block of the wrapped response. -/
structure ConfidenceInfo where
  score_percent : Int
  level : String
  indicator : String

/-- Explainability block attached to the wrapped response by the
orchestrator. -/
structure ExplainInfo where
  score : Int
  reasoning_available : Bool

/-- The response envelope returned by the orchestrator, covering both the
wrapped success shape and the error shape of Orchestrator._error_response;
keys absent from one shape are optional fields. -/
structure ResponseEnvelope where
  success : Bool
  agent : Option String
  timestamp : Nat
  confidence : Option ConfidenceInfo
  data : List (String × Value)
  reasoning : Option String
  disclaimer : String
  audit_id : Option String
  emergency : Bool
  emergency_alert : Option String
  intent : Option IntentClassification
  safety_check : Option (List (String × Value))
  explainability : Option ExplainInfo

/-- Modelled from the spec: the disclaimer table of the safety wrapper.
The module orchestrator/safety_wrapper.py is not among the sources; the
spec prescribes a fixed table keyed by handler type with a generic
fallback, and the orchestrator source reads the key general from it. -/
def disclaimers : List (String × String) :=
  [ ("general", "This information is educational and is not a substitute for professional medical advice."),
    ("triage", "This urgency assessment does not replace evaluation by a qualified clinician."),
    ("drug_info", "Medication information is educational; consult a pharmacist or physician before acting on it.") ]

/-- The generic disclaimer, the entry under the key general. -/
def generalDisclaimer : String :=
  "This information is educational and is not a substitute for professional medical advice."

/-- Disclaimer lookup with the generic fallback. -/
def disclaimerFor (agentType : String) : String :=
  match disclaimers.find? (fun p => p.1 == agentType) with
  | some p => p.2
  | none => generalDisclaimer

/-- Modelled from the spec: the closed prohibited-phrase list the wrapper
searches for; the spec names definitive-diagnosis phrasings as the
examples. -/
def prohibitedPhrases : List String := ["you have", "diagnosed with"]

/-- Glyph per confidence level, as in the source confidence emoji map. -/
def levelIndicator (l : ConfidenceLevel) : String :=
  match l with
  | ConfidenceLevel.high => "🟢"
  | ConfidenceLevel.moderate => "🟡"
  | ConfidenceLevel.low => "🟠"
  | ConfidenceLevel.veryLow => "🔴"

/-- Rounding used by the spec for the confidence percentage. -/
def pyRound (q : ℚ) : Int := pyInt (q + mkRat 1 2)

/-- Modelled from the spec: the emergency alert summary string prepended
by the wrapper when the escalation condition holds. -/
def emergencyAlertText (reply : AgentResponse) : String :=
  if reply.red_flags.isEmpty then
    "EMERGENCY ALERT: immediate clinical escalation required."
  else
    "EMERGENCY ALERT: " ++ String.intercalate "; " reply.red_flags

/-- Modelled from the spec: SafetyWrapper.wrap_response of the absent
module orchestrator/safety_wrapper.py, following spec section 4.3.
It stringifies data and reasoning and searches for prohibited substrings,
raising a safety violation on a match; otherwise it builds the wrapped
response with the disclaimer, the emergency overlay driven by
requires_escalation or red_flags, and the confidence leveling. -/
def wrapResponse (reply : AgentResponse) (agentType : String) : Except String ResponseEnvelope :=
  let text := toLowerChars (pyStr (Value.obj reply.data) ++ " " ++ reply.reasoning.getD "")
  match prohibitedPhrases.find? (fun p => containsLits p.data text) with
  | some p => Except.error ("Prohibited language detected: " ++ p)
  | none =>
    let isEmergency := reply.requires_escalation || !reply.red_flags.isEmpty
    Except.ok
      { success := reply.success
        agent := some reply.agent_name
        timestamp := reply.timestamp
        confidence := some
          { score_percent := pyRound (reply.confidence * 100)
            level := levelValue (getConfidenceLevel reply.confidence)
            indicator := levelIndicator (getConfidenceLevel reply.confidence) }
        data := reply.data
        reasoning := reply.reasoning
        disclaimer := disclaimerFor agentType
        audit_id := none
        emergency := isEmergency
        emergency_alert := if isEmergency then some (emergencyAlertText reply) else none
        intent := none
        safety_check := some
          [ ("prohibited_language", Value.str "passed"),
            ("emergency_overlay", Value.bool isEmergency) ]
        explainability := none }

/-- The clinician override record stored by the audit logger; the source
serializes it as JSON text in the string column clinician_override. -/
structure OverrideRecord where
  clinician_id : String
  timestamp : Nat
  reason : String
  new_decision : String

/-- Embedding of the AuditLog row of models/system.py, with the fields the
audit logger writes. -/
structure AuditEntry where
  id : Nat
  timestamp : Nat
  user_id : String
  agent_name : String
  action : String
  input_data : List (String × Value)
  output_data : List (String × Value)
  confidence_score : Option Int
  reasoning_summary : Option String
  decision_factors : Option (List DecisionFactor)
  alternative_considerations : Option (List String)
  explainability_score : Option Int
  escalation_triggered : Option String
  safety_flags : Option (List (String × Value))
  clinician_override : Option OverrideRecord

/-- The first characters of a string, embedding Python slicing. -/
def takeChars (n : Nat) (s : String) : String := String.mk (s.data.take n)

/-- Zero padding to five digits, embedding the format 05d. -/
def pad5 (n : Nat) : String :=
  let s := natStr n
  String.mk (List.replicate (5 - s.length) (Char.ofNat 48)) ++ s

/-- An optional string as an embedded value, None becoming null. -/
def optStrVal : Option String → Value
  | some s => Value.str s
  | none => Value.null

/-- Embedding of AuditLogger.log_interaction. The SHA-256 user id hashing
of the source is kept abstract as the hash argument; the autoincrement
primary key becomes one past the current store length. Returns the
human-readable audit id and the extended store. -/
def logInteraction (hash : String → String) (log : List AuditEntry) (request : AgentRequest)
    (response : AgentResponse) (wrapped : ResponseEnvelope) (explain : ExplainabilityMetadata)
    (escalation : Option String) (dateStr : String) (now : Nat) : String × List AuditEntry :=
  let inputData := deidentifyData
    [ ("message", Value.str request.message),
      ("attachments", Value.arr (request.attachments.map Value.str)),
      ("context", Value.obj request.context) ]
  let outputData :=
    [ ("agent", Value.str response.agent_name),
      ("data", Value.obj response.data),
      ("confidence", Value.num response.confidence),
      ("reasoning", optStrVal response.reasoning),
      ("red_flags", Value.arr (response.red_flags.map Value.str)),
      ("requires_escalation", Value.bool response.requires_escalation),
      ("disclaimer_applied", Value.str (takeChars 100 wrapped.disclaimer)) ]
  let entry : AuditEntry :=
    { id := log.length + 1
      timestamp := now
      user_id := hash request.user_id
      agent_name := response.agent_name
      action := "agent_query"
      input_data := inputData
      output_data := outputData
      confidence_score := some (pyInt (response.confidence * 100))
      reasoning_summary := some explain.reasoning_summary
      decision_factors := some explain.decision_factors
      alternative_considerations := some explain.alternative_considerations
      explainability_score := some explain.explainability_score
      escalation_triggered := escalation
      safety_flags := wrapped.safety_check
      clinician_override := none }
  ("audit_" ++ dateStr ++ "_" ++ pad5 entry.id, log ++ [entry])

/-- Embedding of AuditLogger.log_safety_violation. -/
def logSafetyViolation (hash : String → String) (log : List AuditEntry) (request : AgentRequest)
    (violationType details : String) (now : Nat) : List AuditEntry :=
  log ++
    [ { id := log.length + 1
        timestamp := now
        user_id := hash request.user_id
        agent_name := "safety_agent"
        action := "safety_violation"
        input_data := deidentifyData [("message", Value.str request.message)]
        output_data :=
          [ ("violation_type", Value.str violationType),
            ("details", Value.str details),
            ("blocked", Value.bool true) ]
        confidence_score := none
        reasoning_summary := none
        decision_factors := none
        alternative_considerations := none
        explainability_score := none
        escalation_triggered := some violationType
        safety_flags := none
        clinician_override := none } ]

/-- Decimal digits of a character. -/
def charDigit? (c : Char) : Option Nat :=
  if c.isDigit then some (c.toNat - 48) else none

/-- Parsing of a nonempty all-digit string, embedding Python int() on a
decimal string; any other string fails. -/
def decToNatAux : Nat → List Char → Option Nat
  | acc, [] => some acc
  | acc, c :: rest =>
    match charDigit? c with
    | some d => decToNatAux (acc * 10 + d) rest
    | none => none

/-- Parsing entry point; the empty string fails like int() does. -/
def decToNat? : List Char → Option Nat
  | [] => none
  | s => decToNatAux 0 s

/-- Splitting a character list at a separator, embedding str.split. -/
def splitChar (sep : Char) : List Char → List (List Char)
  | [] => [[]]
  | c :: rest =>
    let r := splitChar sep rest
    if c == sep then [] :: r
    else
      match r with
      | [] => [[c]]
      | g :: gs => (c :: g) :: gs

/-- The numeric suffix of an audit id as parsed by
AuditLogger.get_audit_log: the text after the final underscore read as an
integer. -/
def auditIdSuffix (auditId : String) : Option Nat :=
  match (splitChar (Char.ofNat 95) auditId.data).getLast? with
  | some g => decToNat? g
  | none => none

/-- The comparison the SQL filter of AuditLogger.log_clinician_override
performs: the integer id column against the full audit id string. Under
the store affinity rules a text operand is converted to a number when it
parses as one and the comparison is false otherwise, so a well-formed
audit id string never equals an integer id. -/
def intTextEq (n : Nat) (s : String) : Bool :=
  match decToNat? s.data with
  | some m => n == m
  | none => false

/-- Replacement of the clinician_override field of the first entry the
predicate accepts, embedding the query-then-mutate of the source. -/
def setOverrideFirst (p : AuditEntry → Bool) (rec : OverrideRecord) :
    List AuditEntry → List AuditEntry
  | [] => []
  | e :: rest =>
    if p e then { e with clinician_override := some rec } :: rest
    else e :: setOverrideFirst p rec rest

/-- Embedding of AuditLogger.log_clinician_override: the filter compares
the integer id column with the full audit id string, then the matched
entry, if any, receives the override record. -/
def logClinicianOverride (hash : String → String) (log : List AuditEntry) (auditId : String)
    (clinicianId overrideReason newDecision : String) (now : Nat) : List AuditEntry :=
  setOverrideFirst (fun e => intTextEq e.id auditId)
    { clinician_id := hash clinicianId
      timestamp := now
      reason := overrideReason
      new_decision := newDecision } log

/-- Embedding of AuditLogger.get_audit_log: the numeric suffix of the
audit id is parsed and the entry with that integer id is returned. -/
def getAuditLog (log : List AuditEntry) (auditId : String) : Option AuditEntry :=
  match auditIdSuffix auditId with
  | some n => log.find? (fun e => e.id == n)
  | none => none


/-- A registered handler: its stable name, enabled flag, and process
function; a raising process is embedded as an error result. -/
structure Agent where
  name : String
  enabled : Bool
  process : AgentRequest → Except String AgentResponse

/-- Registry lookup by name, embedding AgentRegistry.get. -/
def getAgent (registry : List Agent) (name : String) : Option Agent :=
  registry.find? (fun a => a.name == name)

/-- The context mutation of Orchestrator.process_request step 2.5: when
the primary agent is communication and the context lacks a question key,
the message is stored under it. -/
def annotateRequest (request : AgentRequest) (intent : IntentClassification) : AgentRequest :=
  if intent.primary_agent == "communication" && (ctxGet request.context "question").isNone then
    { request with context := request.context ++ [("question", Value.str request.message)] }
  else request

/-- Embedding of Orchestrator._error_response: the error envelope with a
null audit id, the general disclaimer and the emergency flag cleared. -/
def errorResponse (now : Nat) (message : String) : ResponseEnvelope :=
  { success := false
    agent := none
    timestamp := now
    confidence := none
    data := [("error", Value.str message)]
    reasoning := none
    disclaimer := generalDisclaimer
    audit_id := none
    emergency := false
    emergency_alert := none
    intent := none
    safety_check := none
    explainability := none }

/-- Embedding of Orchestrator.process_request. A handler exception is
caught by the outer handler of the source and becomes an error envelope;
no audit entry is written on that path. The date string used inside audit
ids and the clock are passed explicitly. -/
def processRequest (hash : String → String) (registry : List Agent) (dateStr : String)
    (now : Nat) (request : AgentRequest) (log : List AuditEntry) :
    ResponseEnvelope × List AuditEntry :=
  if request.message.data.all Char.isWhitespace then
    (errorResponse now "Empty message. Please provide a valid query.", log)
  else
    let intent := classify request
    let request := annotateRequest request intent
    match getAgent registry intent.primary_agent with
    | none =>
      (errorResponse now ("Agent " ++ quoApos intent.primary_agent
        ++ " not found. Please check agent registry."), log)
    | some agent =>
      if !agent.enabled then
        (errorResponse now ("Agent " ++ quoApos intent.primary_agent
          ++ " is currently disabled."), log)
      else
        match agent.process request with
        | Except.error e =>
          (errorResponse now ("An error occurred while processing your request. Error: " ++ e), log)
        | Except.ok agentResponse =>
          match wrapResponse agentResponse intent.primary_agent with
          | Except.error v =>
            let log := logSafetyViolation hash log request "prohibited_language" v now
            (errorResponse now "The AI generated a response that violates safety boundaries. This has been logged. Please rephrase your query.", log)
          | Except.ok wrapped =>
            let explain := explainAgentResponse agentResponse intent.primary_agent
            let escalation := if wrapped.emergency then wrapped.emergency_alert else none
            let logged := logInteraction hash log request agentResponse wrapped explain escalation dateStr now
            ({ wrapped with
                audit_id := some logged.1
                explainability := some
                  { score := explain.explainability_score
                    reasoning_available := explain.reasoning_summary != "" }
                intent := some intent },
              logged.2)

/-- One entry of the multi-agent response mapping: a wrapped reply or the
error text of a failed handler. -/
inductive MultiEntry where
  | ok (w : ResponseEnvelope)
  | err (e : String)

/-- Whether a multi-agent entry is the error shape. -/
def entryIsErr : MultiEntry → Bool
  | MultiEntry.ok _ => false
  | MultiEntry.err _ => true

/-- The aggregate result of Orchestrator.process_multi_agent. -/
structure MultiResult where
  success : Bool
  multi_agent : Bool
  agents : List String
  responses : List (String × MultiEntry)

/-- Embedding of Orchestrator.process_multi_agent: every named, present
and enabled handler runs; a process or wrapper exception becomes an error
entry for that handler only; the database session is never used, so the
audit store is returned unchanged. -/
def processMultiAgent (registry : List Agent) (request : AgentRequest)
    (agentNames : List String) (log : List AuditEntry) : MultiResult × List AuditEntry :=
  let responses := agentNames.foldl (fun acc name =>
    match getAgent registry name with
    | some a =>
      if a.enabled then
        match a.process request with
        | Except.ok resp =>
          (match wrapResponse resp name with
           | Except.ok w => acc ++ [(name, MultiEntry.ok w)]
           | Except.error v => acc ++ [(name, MultiEntry.err v)])
        | Except.error e => acc ++ [(name, MultiEntry.err e)]
      else acc
    | none => acc) []
  ({ success := true
     multi_agent := true
     agents := responses.map Prod.fst
     responses := responses }, log)


/-- Concrete handler reply with an escalation flag and a red flag, used to
instantiate the wrapper theorems. -/
def exEscReply : AgentResponse :=
  { success := true
    agent_name := "triage"
    data := []
    confidence := mkRat 1 2
    red_flags := ["severe chest pain"]
    requires_escalation := true }

/-- The wrapped response of the escalating reply. -/
def exEscWrapped : ResponseEnvelope :=
  ((wrapResponse exEscReply "triage").toOption).getD (errorResponse 0 "")

/-- A handler whose process raises, registered under the fallback name. -/
def boomAgent : Agent :=
  { name := "communication", enabled := true, process := fun _ => Except.error "boom" }

/-- A request whose message matches no pattern table, so classification
falls back to the communication handler. -/
def zzzRequest : AgentRequest := { user_id := "u9", message := "zzz" }

/-- A reply with empty reasoning and low confidence from the triage
handler on a routine case. -/
def exLowConfReply : AgentResponse :=
  { success := true
    agent_name := "triage"
    data := [("urgency_level", Value.str "ROUTINE")]
    confidence := mkRat 1 5 }

/-- Input data carrying a PII key inside a list nested in a list. -/
def nestedPiiInput : List (String × Value) :=
  [ ("message", Value.str "hello"),
    ("attachments", Value.arr []),
    ("context", Value.obj
      [("notes", Value.arr [Value.arr [Value.obj [("name", Value.str "bob")]]])]) ]

/-- A previously written audit entry with numeric id 123. -/
def exEntry123 : AuditEntry :=
  { id := 123
    timestamp := 5
    user_id := "hasheduser"
    agent_name := "triage"
    action := "agent_query"
    input_data := []
    output_data := []
    confidence_score := some 80
    reasoning_summary := none
    decision_factors := none
    alternative_considerations := none
    explainability_score := none
    escalation_triggered := none
    safety_flags := none
    clinician_override := none }

/-- An audit store holding only the entry with id 123. -/
def exLog123 : List AuditEntry := [exEntry123]

/-- A succeeding handler reply for the multi-agent scenario. -/
def okReplyAlpha : AgentResponse :=
  { success := true, agent_name := "alpha", data := [], confidence := mkRat 1 2 }

/-- A succeeding handler named alpha. -/
def alphaAgent : Agent :=
  { name := "alpha", enabled := true, process := fun _ => Except.ok okReplyAlpha }

/-- A handler named beta whose process raises. -/
def betaAgent : Agent :=
  { name := "beta", enabled := true, process := fun _ => Except.error "boom" }

/-- Registry with the succeeding and the failing handler. -/
def multiRegistry : List Agent := [alphaAgent, betaAgent]

/-- Request used in the multi-agent scenario. -/
def multiRequest : AgentRequest := { user_id := "u3", message := "hello" }

/-- The wrapped reply of the succeeding handler in the multi-agent
scenario. -/
def wrappedAlpha : ResponseEnvelope :=
  ((wrapResponse okReplyAlpha "alpha").toOption).getD (errorResponse 0 "")

theorem mkRat_eq_div (a : ℤ) (b : ℕ) : (mkRat a b : ℚ) = (a : ℚ) / (b : ℚ) := by
  rw [Rat.mkRat_eq_divInt, Rat.divInt_eq_div]; norm_num

theorem ratMin_le_left (a b : ℚ) : ratMin a b ≤ a := by
  unfold ratMin; split_ifs with h
  · exact le_refl a
  · exact le_of_not_le h

theorem le_ratMin (a b c : ℚ) (ha : c ≤ a) (hb : c ≤ b) : c ≤ ratMin a b := by
  unfold ratMin; split_ifs <;> assumption

/-- C5: confidence-level derivation is total and deterministic on the unit
interval, follows the documented thresholds, and is monotone with respect
to the order very low, low, moderate, high. The embedded function
getConfidenceLevel is AgentResponse.get_confidence_level of
orchestrator/base.py. -/
theorem confidence_level_thresholds_monotone :
    (∀ x : ℚ, 0 ≤ x → x ≤ 1 →
      ((getConfidenceLevel x = ConfidenceLevel.high ↔ mkRat 8 10 ≤ x) ∧
       (getConfidenceLevel x = ConfidenceLevel.moderate ↔ mkRat 5 10 ≤ x ∧ x < mkRat 8 10) ∧
       (getConfidenceLevel x = ConfidenceLevel.low ↔ mkRat 2 10 ≤ x ∧ x < mkRat 5 10) ∧
       (getConfidenceLevel x = ConfidenceLevel.veryLow ↔ x < mkRat 2 10))) ∧
    (∀ x y : ℚ, x ≤ y → levelRank (getConfidenceLevel x) ≤ levelRank (getConfidenceLevel y)) := by
  constructor
  · intro x hx0 hx1
    unfold getConfidenceLevel
    split_ifs with h1 h2 h3 <;>
      refine ⟨?_, ?_, ?_, ?_⟩ <;>
      constructor <;>
      intro h <;>
      simp only [mkRat_eq_div] at * <;>
      first
      | rfl
      | assumption
      | (exact absurd rfl (by simp_all))
      | (constructor <;> linarith)
      | linarith
  · intro x y hxy
    unfold getConfidenceLevel
    split_ifs with h1 h2 h3 h4 h5 h6 <;>
      simp only [levelRank] <;>
      first
      | omega
      | (exfalso; simp only [mkRat_eq_div] at *; linarith)

/-- Witness for C5 at concrete confidences. -/
theorem confidence_level_thresholds_monotone_witness :
    getConfidenceLevel (mkRat 9 10) = ConfidenceLevel.high ∧
      levelRank (getConfidenceLevel (mkRat 1 10)) ≤ levelRank (getConfidenceLevel (mkRat 9 10)) :=
  ⟨((confidence_level_thresholds_monotone.1 (mkRat 9 10) (by decide) (by decide)).1).mpr (by decide),
   confidence_level_thresholds_monotone.2 (mkRat 1 10) (mkRat 9 10) (by decide)⟩

theorem mem_insertDesc (x y : String × ℚ) (l : List (String × ℚ)) :
    x ∈ insertDesc y l ↔ x = y ∨ x ∈ l := by
  induction l with
  | nil => simp [insertDesc]
  | cons z rest ih =>
    unfold insertDesc
    split_ifs with h
    · simp only [List.mem_cons, ih]
      tauto
    · simp only [List.mem_cons]

theorem mem_sortDesc (x : String × ℚ) (l : List (String × ℚ)) :
    x ∈ sortDesc l ↔ x ∈ l := by
  induction l with
  | nil => simp [sortDesc]
  | cons a rest ih =>
    show x ∈ insertDesc a (sortDesc rest) ↔ _
    rw [mem_insertDesc]
    simp only [List.mem_cons, ih]

theorem agentPatterns_len : ∀ p ∈ agentPatterns, 0 < p.2.length ∧ p.2.length ≤ 4 := by decide

theorem scoreAgents_bounds (msg : List Char) (p : String × ℚ) (hp : p ∈ scoreAgents msg) :
    mkRat 7 20 ≤ p.2 ∧ p.2 ≤ mkRat 19 20 := by
  unfold scoreAgents at hp
  rw [List.mem_filterMap] at hp
  obtain ⟨a, ha, hfa⟩ := hp
  obtain ⟨hlen, hle⟩ := agentPatterns_len a ha
  dsimp only at hfa
  split at hfa
  case isTrue hm =>
    injection hfa with hfa
    subst hfa
    constructor
    · apply le_ratMin
      · decide
      · have hm1 : (1 : ℚ) ≤ ((a.2.filter (fun pat => pattMatches pat msg)).length : ℚ) := by
          exact_mod_cast hm
        have hT0 : (0 : ℚ) < (a.2.length : ℚ) := by exact_mod_cast hlen
        have hT4 : ((a.2.length : ℕ) : ℚ) ≤ 4 := by exact_mod_cast hle
        simp only [mkRat_eq_div]
        push_cast
        set mq : ℚ := ((a.2.filter (fun pat => pattMatches pat msg)).length : ℚ) with hmq
        have h1 : (1 : ℚ) / (a.2.length : ℚ) ≤ mq / (a.2.length : ℚ) := by gcongr
        have h2 : (1 : ℚ) / 4 ≤ 1 / (a.2.length : ℚ) :=
          one_div_le_one_div_of_le hT0 hT4
        have h3 : (1 : ℚ) / 10 ≤ mq * (1 / 10) := by linarith
        linarith
    · exact ratMin_le_left _ _
  case isFalse hm => exact absurd hfa (by simp)

theorem classify_eq_of_emergency (request : AgentRequest)
    (h : 0 < emergencyMatchCount (toLowerChars request.message)) :
    classify request =
      { primary_agent := "triage"
        secondary_agents := []
        urgency := UrgencyLevel.emergency
        confidence := ratMin (mkRat 19 20)
          (mkRat 7 10 + (emergencyMatchCount (toLowerChars request.message) : ℚ) * mkRat 3 20)
        reasoning := "Emergency keywords detected. Immediate triage required." } := by
  have hce : checkEmergency (toLowerChars request.message) =
      (UrgencyLevel.emergency, ratMin (mkRat 19 20)
        (mkRat 7 10 + (emergencyMatchCount (toLowerChars request.message) : ℚ) * mkRat 3 20)) := by
    unfold checkEmergency
    simp [h]
  unfold classify
  simp [hce]

theorem emergency_conf_lb (m : ℕ) :
    mkRat 7 10 ≤ ratMin (mkRat 19 20) (mkRat 7 10 + (m : ℚ) * mkRat 3 20) := by
  apply le_ratMin
  · decide
  · have h0 : (0 : ℚ) ≤ (m : ℚ) * mkRat 3 20 := by
      rw [mkRat_eq_div]
      positivity
    linarith

/-- C1: a request whose lowercased message matches at least one emergency
pattern is classified with primary agent triage, empty secondary agents,
emergency urgency, and confidence min 0.95 (0.70 plus 0.15 per matching
pattern), hence at least 0.70, whatever the other pattern tables match. -/
theorem emergency_gate_classify (request : AgentRequest)
    (h : 0 < emergencyMatchCount (toLowerChars request.message)) :
    (classify request).primary_agent = "triage" ∧
    (classify request).secondary_agents = [] ∧
    (classify request).urgency = UrgencyLevel.emergency ∧
    (classify request).confidence =
      ratMin (mkRat 19 20)
        (mkRat 7 10 + (emergencyMatchCount (toLowerChars request.message) : ℚ) * mkRat 3 20) ∧
    mkRat 7 10 ≤ (classify request).confidence := by
  rw [classify_eq_of_emergency request h]
  refine ⟨rfl, rfl, rfl, rfl, ?_⟩
  exact emergency_conf_lb _

/-- Witness for C1 on a concrete emergency message. -/
theorem emergency_gate_classify_witness :
    0 < emergencyMatchCount (toLowerChars "I have severe chest pain") ∧
    (classify { user_id := "u1", message := "I have severe chest pain" }).primary_agent = "triage" ∧
    mkRat 7 10 ≤ (classify { user_id := "u1", message := "I have severe chest pain" }).confidence := by
  refine ⟨by decide, ?_, ?_⟩
  · exact (emergency_gate_classify { user_id := "u1", message := "I have severe chest pain" } (by decide)).1
  · exact (emergency_gate_classify { user_id := "u1", message := "I have severe chest pain" } (by decide)).2.2.2.2

/-- C10: intent classification depends only on the message text; requests
with equal messages classify identically whatever their other fields. -/
theorem classify_message_deterministic (r1 r2 : AgentRequest) (h : r1.message = r2.message) :
    classify r1 = classify r2 := by
  unfold classify
  rw [h]

/-- Witness for C10: same message, different user, session and context. -/
theorem classify_message_deterministic_witness :
    classify { user_id := "alpha", message := "i have a headache" } =
      classify { user_id := "beta", message := "i have a headache", session_id := some "s9",
                 attachments := ["scan.png"], context := [("age", Value.num 34)], timestamp := 99 } :=
  classify_message_deterministic _ _ rfl

theorem checkEmergency_of_none (msg : List Char) (he : ¬ 0 < emergencyMatchCount msg) :
    checkEmergency msg = (UrgencyLevel.routine, 0) := by
  unfold checkEmergency
  dsimp only
  rw [if_neg he]

theorem classify_eq_of_fallback (request : AgentRequest)
    (he : ¬ 0 < emergencyMatchCount (toLowerChars request.message))
    (hs : sortDesc (scoreAgents (toLowerChars request.message)) = []) :
    classify request =
      { primary_agent := "communication"
        secondary_agents := []
        urgency := UrgencyLevel.routine
        confidence := mkRat 3 10
        reasoning := "No specific agent matched. Defaulting to general communication." } := by
  have hce := checkEmergency_of_none _ he
  unfold classify
  simp [hce, hs]

theorem classify_confidence_of_scores (request : AgentRequest)
    (he : ¬ 0 < emergencyMatchCount (toLowerChars request.message))
    (top : String × ℚ) (rest : List (String × ℚ))
    (hs : sortDesc (scoreAgents (toLowerChars request.message)) = top :: rest) :
    (classify request).confidence = top.2 := by
  have hce := checkEmergency_of_none _ he
  unfold classify
  simp [hce, hs]

/-- C9: the classifier never leaves the band 0.30 to 0.95: the no-match
fallback returns exactly 0.30, a scored handler at least 0.35, the
emergency gate at least 0.85, and every path is capped at 0.95. -/
theorem classifier_confidence_range (request : AgentRequest) :
    (mkRat 3 10 ≤ (classify request).confidence ∧ (classify request).confidence ≤ mkRat 19 20) ∧
    ((classify request).confidence = mkRat 3 10 ∨ mkRat 7 20 ≤ (classify request).confidence) ∧
    (0 < emergencyMatchCount (toLowerChars request.message) →
      mkRat 17 20 ≤ (classify request).confidence) := by
  by_cases he : 0 < emergencyMatchCount (toLowerChars request.message)
  · rw [classify_eq_of_emergency request he]
    have hm1 : (1 : ℚ) ≤ (emergencyMatchCount (toLowerChars request.message) : ℚ) := by
      exact_mod_cast he
    have h17 : mkRat 17 20 ≤ ratMin (mkRat 19 20)
        (mkRat 7 10 + (emergencyMatchCount (toLowerChars request.message) : ℚ) * mkRat 3 20) := by
      apply le_ratMin
      · decide
      · simp only [mkRat_eq_div]
        push_cast
        nlinarith
    refine ⟨⟨?_, ?_⟩, Or.inr ?_, fun _ => ?_⟩
    · exact le_trans (by decide) h17
    · exact ratMin_le_left _ _
    · exact le_trans (by decide) h17
    · exact h17
  · cases hs : sortDesc (scoreAgents (toLowerChars request.message)) with
    | nil =>
      rw [classify_eq_of_fallback request he hs]
      refine ⟨⟨le_refl _, by decide⟩, Or.inl rfl, fun hc => absurd hc he⟩
    | cons top rest =>
      have hc := classify_confidence_of_scores request he top rest hs
      have htop : top ∈ scoreAgents (toLowerChars request.message) := by
        rw [← mem_sortDesc, hs]
        exact List.mem_cons_self _ _
      obtain ⟨hb1, hb2⟩ := scoreAgents_bounds _ top htop
      rw [hc]
      refine ⟨⟨le_trans (by decide) hb1, hb2⟩, Or.inr hb1, fun hcon => absurd hcon he⟩

/-- Witness for C9: the emergency lower bound at a concrete message. -/
theorem classifier_confidence_range_witness :
    mkRat 17 20 ≤ (classify { user_id := "u2", message := "chest pain" }).confidence :=
  (classifier_confidence_range { user_id := "u2", message := "chest pain" }).2.2 (by decide)

/-- C2: a wrapped response produced by the safety wrapper carries the
emergency flag exactly when the reply requires escalation or has red
flags, and in that case the emergency alert summary string is included;
otherwise the flag is false. The wrapper is modelled from the spec, its
source module being absent. -/
theorem safety_wrapper_emergency_flag (reply : AgentResponse) (agentType : String)
    (w : ResponseEnvelope) (h : wrapResponse reply agentType = Except.ok w) :
    ((reply.requires_escalation = true ∨ reply.red_flags ≠ []) →
      (w.emergency = true ∧ w.emergency_alert = some (emergencyAlertText reply))) ∧
    ((reply.requires_escalation = false ∧ reply.red_flags = []) → w.emergency = false) := by
  unfold wrapResponse at h
  dsimp only at h
  split at h
  · exact absurd h (by simp)
  · injection h with h
    subst h
    constructor
    · intro hcond
      have hb : (reply.requires_escalation || !reply.red_flags.isEmpty) = true := by
        rcases hcond with h1 | h2
        · simp [h1]
        · simp [h2]
      refine ⟨by simp [hb], by simp [hb]⟩
    · rintro ⟨h1, h2⟩
      simp [h1, h2]

/-- Witness for C2: the escalating reply is wrapped with the emergency
flag and alert set. -/
theorem safety_wrapper_emergency_flag_witness :
    exEscWrapped.emergency = true ∧
      exEscWrapped.emergency_alert = some (emergencyAlertText exEscReply) :=
  (safety_wrapper_emergency_flag exEscReply "triage" exEscWrapped (by rfl)).1 (Or.inl rfl)

mutual

theorem cleanData_deidentify : (d : List (String × Value)) → cleanData (deidentifyData d) = true
  | [] => rfl
  | (k, v) :: rest => by
    unfold deidentifyData cleanData
    split_ifs with hk
    · simp [cleanData_deidentify rest, redactedLit]
    · simp [cleanVal_deidentifySub v, cleanData_deidentify rest]

theorem cleanVal_deidentifySub : (v : Value) → cleanVal (deidentifySub v) = true
  | Value.obj fields => by
    unfold deidentifySub cleanVal
    exact cleanData_deidentify fields
  | Value.arr items => by
    unfold deidentifySub cleanVal
    exact cleanItems_deidentifyItems items
  | Value.str _ => rfl
  | Value.num _ => rfl
  | Value.bool _ => rfl
  | Value.null => rfl

theorem cleanItems_deidentifyItems : (l : List Value) → cleanItems (deidentifyItems l) = true
  | [] => rfl
  | Value.obj fields :: rest => by
    unfold deidentifyItems cleanItems
    simp [cleanData_deidentify fields, cleanItems_deidentifyItems rest]
  | Value.str s :: rest => by
    unfold deidentifyItems cleanItems
    exact cleanItems_deidentifyItems rest
  | Value.num q :: rest => by
    unfold deidentifyItems cleanItems
    exact cleanItems_deidentifyItems rest
  | Value.bool b :: rest => by
    unfold deidentifyItems cleanItems
    exact cleanItems_deidentifyItems rest
  | Value.null :: rest => by
    unfold deidentifyItems cleanItems
    exact cleanItems_deidentifyItems rest
  | Value.arr items :: rest => by
    unfold deidentifyItems cleanItems
    exact cleanItems_deidentifyItems rest

end

theorem deidentify_keys : (d : List (String × Value)) →
    (deidentifyData d).map Prod.fst = d.map Prod.fst
  | [] => rfl
  | (k, v) :: rest => by
    unfold deidentifyData
    simp [deidentify_keys rest]

/-- C4 amended: audit redaction replaces every PII-set key it reaches,
where the reach is the top mapping, nested mappings, and mappings sitting
directly inside lists, but not mappings inside lists nested in lists; key
order is preserved. -/
theorem redaction_reachable_clean (d : List (String × Value)) :
    cleanData (deidentifyData d) = true ∧
    (deidentifyData d).map Prod.fst = d.map Prod.fst :=
  ⟨cleanData_deidentify d, deidentify_keys d⟩

/-- C4 counterexample: an input mapping whose PII field sits inside a list
nested in a list passes through redaction completely unchanged, so the
persisted data still holds the original value under the key name. -/
theorem redaction_nested_list_counterexample :
    deidentifyData nestedPiiInput = nestedPiiInput ∧
    deepCleanData (deidentifyData nestedPiiInput) = false := by
  refine ⟨by rfl, by rfl⟩

theorem agentSpecificFactors_len (r : AgentResponse) (t : String) :
    (agentSpecificFactors r t).length ≤ 1 := by
  unfold agentSpecificFactors
  split_ifs
  · simp
  · split <;> simp
  · split <;> simp
  · simp

theorem extractDecisionFactors_len (r : AgentResponse) (t : String) :
    (extractDecisionFactors r t).length ≤ 3 := by
  unfold extractDecisionFactors
  have h := agentSpecificFactors_len r t
  split_ifs <;> simp <;> omega

theorem identifyAlternatives_len (r : AgentResponse) (t : String) :
    (identifyAlternatives r t).length ≤ 3 := by
  unfold identifyAlternatives
  split_ifs with h1 h2 h3
  · split <;> simp [List.length_take]
  · dsimp only
    split_ifs <;> simp
  · simp
  · simp

/-- C6 amended: a reply with empty (falsy) reasoning and confidence below
0.30 gets an explainability score of at most 55: the minus twenty penalty
applies and neither reasoning bonus can, but the factor bonus (at most
ten, factor count never reaching four) and the alternatives bonuses (at
most fifteen) remain available on top of the base fifty. -/
theorem explainability_low_conf_bound (r : AgentResponse) (t : String)
    (hr : pyTruthyStr r.reasoning = false)
    (hc : r.confidence < mkRat 3 10) :
    (explainAgentResponse r t).explainability_score ≤ 55 := by
  have hf := extractDecisionFactors_len r t
  have ha := identifyAlternatives_len r t
  unfold explainAgentResponse calculateExplainabilityScore
  dsimp only
  have e1 : (if pyTruthyStr r.reasoning = true ∧ 20 < (r.reasoning.getD "").length
      then (20 : Int) else 0) = 0 := by
    rw [if_neg]
    rintro ⟨h1, _⟩
    rw [hr] at h1
    exact absurd h1 (by simp)
  have e3 : (if 4 ≤ (extractDecisionFactors r t).length then (5 : Int) else 0) = 0 := by
    rw [if_neg]
    omega
  have e6 : (if r.confidence < mkRat 3 10 ∧ pyTruthyStr r.reasoning = false
      then (20 : Int) else 0) = 20 := if_pos ⟨hc, hr⟩
  have e7 : (if mkRat 8 10 ≤ r.confidence ∧ pyTruthyStr r.reasoning = true
      then (10 : Int) else 0) = 0 := by
    rw [if_neg]
    rintro ⟨h1, _⟩
    exact absurd (lt_of_le_of_lt h1 hc) (by decide)
  rw [e1, e3, e6, e7]
  have b2 : (if 2 ≤ (extractDecisionFactors r t).length then (10 : Int) else 0) ≤ 10 := by
    split_ifs <;> omega
  have b4 : (if 1 ≤ (identifyAlternatives r t).length then (10 : Int) else 0) ≤ 10 := by
    split_ifs <;> omega
  have b5 : (if 3 ≤ (identifyAlternatives r t).length then (5 : Int) else 0) ≤ 5 := by
    split_ifs <;> omega
  omega

/-- Witness for the amended C6 bound at the concrete low-confidence
reply. -/
theorem explainability_low_conf_bound_witness :
    (explainAgentResponse exLowConfReply "triage").explainability_score ≤ 55 :=
  explainability_low_conf_bound exLowConfReply "triage" rfl (by decide)

/-- C6 counterexample: the concrete triage reply with empty reasoning and
confidence 0.20 scores 50, refuting the claimed bound of 30: base 50,
plus 10 for two factors, plus 10 for two alternatives, minus 20. -/
theorem explainability_low_conf_counterexample :
    pyTruthyStr exLowConfReply.reasoning = false ∧
    exLowConfReply.confidence < mkRat 3 10 ∧
    (explainAgentResponse exLowConfReply "triage").explainability_score = 50 ∧
    ¬ ((explainAgentResponse exLowConfReply "triage").explainability_score ≤ 30) := by
  refine ⟨rfl, by decide, by decide, by decide⟩

/-- C3 amended: when the selected handler is present and enabled and its
process raises, process_request returns the error envelope with success
false and a null audit id, and writes no audit entry: the exception is
caught by the outer handler, which skips audit logging. -/
theorem handler_failure_error_envelope (hash : String → String) (registry : List Agent)
    (dateStr : String) (now : Nat) (request : AgentRequest) (log : List AuditEntry)
    (a : Agent) (e : String)
    (hmsg : request.message.data.all Char.isWhitespace = false)
    (ha : getAgent registry (classify request).primary_agent = some a)
    (hen : a.enabled = true)
    (hp : a.process (annotateRequest request (classify request)) = Except.error e) :
    processRequest hash registry dateStr now request log =
      (errorResponse now ("An error occurred while processing your request. Error: " ++ e), log) := by
  unfold processRequest
  simp only [hmsg, Bool.false_eq_true, if_false, ha, hen, Bool.not_true, hp]

/-- Witness for the amended C3 at the concrete failing handler. -/
theorem handler_failure_error_envelope_witness :
    processRequest (fun s => s) [boomAgent] "20260131" 0 zzzRequest [] =
      (errorResponse 0 ("An error occurred while processing your request. Error: " ++ "boom"), []) :=
  handler_failure_error_envelope (fun s => s) [boomAgent] "20260131" 0 zzzRequest []
    boomAgent "boom" (by decide) (by rfl) rfl (by rfl)

/-- C3 counterexample: with the failing handler, the returned envelope has
success false but a null audit id, and the audit store stays empty, so no
agent_query audit entry is written for the failure. -/
theorem handler_failure_no_audit_counterexample :
    (processRequest (fun s => s) [boomAgent] "20260131" 0 zzzRequest []).1.success = false ∧
    (processRequest (fun s => s) [boomAgent] "20260131" 0 zzzRequest []).1.audit_id = none ∧
    (processRequest (fun s => s) [boomAgent] "20260131" 0 zzzRequest []).2.length = 0 := by
  refine ⟨rfl, rfl, rfl⟩

/-- C7: evaluation at the failing input. The clinician override filter
compares the integer id column with the full audit id string, which never
matches, so the entry with id 123 keeps a null clinician_override; the
sibling read path parses the numeric suffix of the same audit id and finds
that entry. -/
theorem clinician_override_lookup_eval :
    logClinicianOverride (fun s => s) exLog123 "audit_20260131_00123"
        "clin7" "disagree" "alternative plan" 9 = exLog123 ∧
    getAuditLog exLog123 "audit_20260131_00123" = some exEntry123 ∧
    exEntry123.clinician_override = none := by
  refine ⟨rfl, rfl, rfl⟩

/-- C8 amended: in process_multi_agent each named handler runs
independently: the failing handler contributes an error entry without
aborting the succeeding one, whose reply is safety-wrapped individually;
but the audit store is returned unchanged, no audit entries being
written. -/
theorem multi_agent_independent (registry : List Agent) (request : AgentRequest)
    (n1 n2 : String) (a1 a2 : Agent) (r1 : AgentResponse) (w1 : ResponseEnvelope) (e : String)
    (log : List AuditEntry)
    (h1 : getAgent registry n1 = some a1) (h1e : a1.enabled = true)
    (hp1 : a1.process request = Except.ok r1) (hw1 : wrapResponse r1 n1 = Except.ok w1)
    (h2 : getAgent registry n2 = some a2) (h2e : a2.enabled = true)
    (hp2 : a2.process request = Except.error e) :
    (processMultiAgent registry request [n1, n2] log).1.responses =
      [(n1, MultiEntry.ok w1), (n2, MultiEntry.err e)] ∧
    (processMultiAgent registry request [n1, n2] log).2 = log := by
  unfold processMultiAgent
  simp only [List.foldl_cons, List.foldl_nil, h1, h1e, hp1, hw1, h2, h2e, hp2,
    if_true, List.nil_append]
  constructor <;> trivial

/-- Witness for the amended C8 on the concrete registry, starting from a
nonempty audit store that stays untouched. -/
theorem multi_agent_independent_witness :
    (processMultiAgent multiRegistry multiRequest ["alpha", "beta"] exLog123).1.responses =
      [("alpha", MultiEntry.ok wrappedAlpha), ("beta", MultiEntry.err "boom")] ∧
    (processMultiAgent multiRegistry multiRequest ["alpha", "beta"] exLog123).2 = exLog123 :=
  multi_agent_independent multiRegistry multiRequest "alpha" "beta" alphaAgent betaAgent
    okReplyAlpha wrappedAlpha "boom" exLog123 rfl rfl rfl (by rfl) rfl rfl rfl

/-- C8 counterexample: both handler entries are present, one success and
one error, yet the audit store stays empty: the claimed two independent
audit entries are never written. -/
theorem multi_agent_no_audit_counterexample :
    (processMultiAgent multiRegistry multiRequest ["alpha", "beta"] []).1.responses =
      [("alpha", MultiEntry.ok wrappedAlpha), ("beta", MultiEntry.err "boom")] ∧
    (processMultiAgent multiRegistry multiRequest ["alpha", "beta"] []).2 = [] := by
  refine ⟨rfl, rfl⟩
